import Mathlib

/- Verification development for a grid Hamiltonian-path solver.

   The Rust source is shallowly embedded: `usize` arithmetic becomes `Nat`
   (the bitmask `x & 1` is written `x % 2`), and code that can panic is
   modelled in `Except PanicCause`.  The display-only petgraph structure
   carried by `GridGraph`/`GridPath` is not modelled, except for the one
   observable effect it has: `Graph::add_edge` panics when an endpoint's
   linear node index `y * n + x` is outside the node range `[0, n*m)`. -/

/-- Modelled from the spec: the `Direction` sum type of `gridextension.rs`
    (the file itself is not present in the sources); the four variants
    `Right`, `Up`, `Left`, `Down` are the ones matched on throughout
    `gridpath.rs` and `gridproblem.rs`. -/
inductive GridExtension where
  | right
  | up
  | left
  | down
  deriving DecidableEq, Repr

/-- The distinct ways the Rust code can panic. -/
inductive PanicCause where
  | oob
  | noEdge
  | badIndex
  | unwrapNone
  | unsolvable
  | fuel
  deriving DecidableEq, Repr

/-- Color / parity of a vertex, `(x + y) mod 2` (spec section 3). -/
def parityOf (v : Nat × Nat) : Nat := (v.1 + v.2) % 2

/-- Distance between two naturals. -/
def natDist (a b : Nat) : Nat := if b ≤ a then a - b else b - a

/-- Grid adjacency: Manhattan distance one (spec section 3). -/
def adjacent (v w : Nat × Nat) : Prop := natDist v.1 w.1 + natDist v.2 w.2 = 1

instance (v w : Nat × Nat) : Decidable (adjacent v w) := by
  unfold adjacent; infer_instance

/-- `GridGraph::are_color_compatible` (gridgraph.rs): a panic on
    out-of-bounds coordinates, then the odd/even endpoint-parity rule. -/
def are_color_compatible (n m : Nat) (v w : Nat × Nat) : Except PanicCause Bool :=
  if v.1 ≥ n ∨ v.2 ≥ m ∨ w.1 ≥ n ∨ w.2 ≥ m then
    .error .oob
  else
    let graph_is_odd : Bool := (n * m) % 2 == 1
    if graph_is_odd then
      .ok (((w.1 + w.2) % 2 == 0) && ((v.1 + v.2) % 2 == 0))
    else
      .ok ((w.1 + w.2) % 2 != (v.1 + v.2) % 2)

/-- `GridGraph::is_corner_vertex` (gridgraph.rs); its own out-of-bounds
    panic is dropped because every caller in the source has already
    bounds-checked both arguments. -/
def is_corner_vertex (n m : Nat) (v : Nat × Nat) : Bool :=
  v == (0, 0) || v == (n - 1, 0) || v == (0, m - 1) || v == (n - 1, m - 1)

/-- `GridGraph::is_forbidden_case_1` (gridgraph.rs). -/
def is_forbidden_case_1 (n m : Nat) (v w : Nat × Nat) : Bool :=
  if v != (0, 0) && w != (0, 0) then true
  else
    let is_n : Bool := n == 1
    let bound : Nat := if is_n then m else n
    if is_n && (v != (0, bound - 1) && w != (0, bound - 1)) then true
    else if !is_n && (v != (bound - 1, 0) && w != (bound - 1, 0)) then true
    else false

/-- `GridGraph::is_forbidden_case_2` (gridgraph.rs). -/
def is_forbidden_case_2 (n m : Nat) (v w : Nat × Nat) : Bool :=
  if is_corner_vertex n m v || is_corner_vertex n m w then false
  else
    let is_n : Bool := n == 2
    if is_n && (v.2 == w.2) then true
    else if !is_n && (v.1 == w.1) then true
    else false

/-- `GridGraph::is_forbidden_case_3` (gridgraph.rs). -/
def is_forbidden_case_3 (n m : Nat) (v w : Nat × Nat) : Bool :=
  let is_n : Bool := n == 3
  let opp_dim : Nat := if is_n then m else n
  if opp_dim % 2 == 1 then false
  else if (w.1 + w.2) % 2 == (v.1 + v.2) % 2 then false
  else
    let comp_coords : Nat × Nat := if is_n then (v.2, w.2) else (v.1, w.1)
    let opp_coord : Nat := if is_n then v.1 else v.2
    let is_greater : Bool := decide (comp_coords.2 < comp_coords.1)
    let distance : Nat :=
      if is_greater then comp_coords.1 - comp_coords.2 else comp_coords.2 - comp_coords.1
    let is_dst_sat : Bool :=
      if opp_coord == 1 then decide (0 < distance) else decide (1 < distance)
    if !is_dst_sat then false
    else if is_greater && ((v.1 + v.2) % 2 == 1) then false
    else if !is_greater && ((v.1 + v.2) % 2 == 0) then false
    else true

/-- `GridGraph::is_forbidden` (gridgraph.rs): bounds panic, then dispatch
    on the thin dimension. -/
def is_forbidden (n m : Nat) (v w : Nat × Nat) : Except PanicCause Bool :=
  if v.1 ≥ n ∨ v.2 ≥ m ∨ w.1 ≥ n ∨ w.2 ≥ m then .error .oob
  else if n == 1 || m == 1 then .ok (is_forbidden_case_1 n m v w)
  else if n == 2 || m == 2 then .ok (is_forbidden_case_2 n m v w)
  else if n == 3 || m == 3 then .ok (is_forbidden_case_3 n m v w)
  else .ok false

/-- The forbidden condition for thin dimension exactly 3, written as the
    claim states it: thick dimension even, endpoint parities differ, the
    thick-coordinate distance exceeds 1 (or 0 when the thin coordinate of
    `v` is 1), and `v` avoids the far-corner parity on the relevant side. -/
def forbidden_case3_claim (n m : Nat) (v w : Nat × Nat) : Prop :=
  let L := if n = 3 then m else n
  let a := if n = 3 then v.2 else v.1
  let b := if n = 3 then w.2 else w.1
  let u := if n = 3 then v.1 else v.2
  L % 2 = 0 ∧ parityOf v ≠ parityOf w ∧
    (if u = 1 then 0 < natDist a b else 1 < natDist a b) ∧
    (b < a → parityOf v ≠ 1) ∧ (a < b → parityOf v ≠ 0)

set_option maxHeartbeats 1600000 in
/-- Claim C6: on a grid whose thin dimension is exactly 3 (one of `n`, `m`
    equals 3 and neither is 1 or 2), `is_forbidden` on in-bounds
    coordinates returns true exactly under the claim's case-3 condition. -/
theorem C6_forbidden_case3_matches_claim (n m : Nat) (v w : Nat × Nat)
    (h3 : n = 3 ∨ m = 3) (hn1 : n ≠ 1) (hn2 : n ≠ 2) (hm1 : m ≠ 1) (hm2 : m ≠ 2)
    (hv1 : v.1 < n) (hv2 : v.2 < m) (hw1 : w.1 < n) (hw2 : w.2 < m) :
    is_forbidden n m v w = .ok true ↔ forbidden_case3_claim n m v w := by
  obtain ⟨vx, vy⟩ := v
  obtain ⟨wx, wy⟩ := w
  simp only [Prod.fst, Prod.snd] at hv1 hv2 hw1 hw2
  have hnb : ¬(vx ≥ n ∨ vy ≥ m ∨ wx ≥ n ∨ wy ≥ m) := by omega
  have hd1 : (n == 1 || m == 1) = false := by
    simp [beq_iff_eq]; omega
  have hd2 : (n == 2 || m == 2) = false := by
    simp [beq_iff_eq]; omega
  have hd3 : (n == 3 || m == 3) = true := by
    simp [beq_iff_eq]; omega
  rw [is_forbidden, if_neg hnb, if_neg (by simp [hd1]), if_neg (by simp [hd2]),
    if_pos (by simp [hd3])]
  have hinj : (Except.ok (is_forbidden_case_3 n m (vx, vy) (wx, wy)) :
      Except PanicCause Bool) = .ok true ↔
      is_forbidden_case_3 n m (vx, vy) (wx, wy) = true := by
    constructor
    · intro h; exact Except.ok.inj h
    · intro h; rw [h]
  rw [hinj]
  by_cases hn3 : n = 3
  · subst hn3
    simp only [is_forbidden_case_3, forbidden_case3_claim, parityOf, natDist,
      beq_self_eq_true, if_true, Prod.fst, Prod.snd]
    split_ifs <;>
      simp only [Bool.not_eq_true', Bool.not_eq_true, Bool.and_eq_true, Bool.false_eq_true,
        Bool.true_eq_false, beq_iff_eq, bne_iff_ne, decide_eq_true_eq, decide_eq_false_iff_not,
        false_iff, true_iff, iff_false, iff_true, not_and, not_lt, not_le, ne_eq,
        Bool.true_and, Bool.false_and, Bool.and_true, Bool.and_false] at * <;>
      omega
  · have hm3 : m = 3 := by tauto
    subst hm3
    have hb : (n == 3) = false := by simp [beq_iff_eq]; omega
    simp only [is_forbidden_case_3, forbidden_case3_claim, parityOf, natDist, hb,
      Bool.false_eq_true, if_false, if_neg hn3, Prod.fst, Prod.snd]
    split_ifs <;>
      simp only [Bool.not_eq_true', Bool.not_eq_true, Bool.and_eq_true, Bool.false_eq_true,
        Bool.true_eq_false, beq_iff_eq, bne_iff_ne, decide_eq_true_eq, decide_eq_false_iff_not,
        false_iff, true_iff, iff_false, iff_true, not_and, not_lt, not_le, ne_eq,
        Bool.true_and, Bool.false_and, Bool.and_true, Bool.and_false] at * <;>
      omega

/-- Witness for C6 at the concrete forbidden instance from the source's
    tests: an 8 by 3 grid with endpoints (5,1) and (4,1). -/
theorem C6_forbidden_case3_matches_claim_witness :
    is_forbidden 8 3 (5, 1) (4, 1) = .ok true ↔ forbidden_case3_claim 8 3 (5, 1) (4, 1) :=
  C6_forbidden_case3_matches_claim 8 3 (5, 1) (4, 1) (Or.inr rfl)
    (by decide) (by decide) (by decide) (by decide)
    (by decide) (by decide) (by decide) (by decide)

/-- Claim C7: on any grid with positive dimensions and in-bounds
    coordinates, `are_color_compatible` returns true exactly when both
    parities are 0 (odd-size grid) respectively the parities differ
    (even-size grid). -/
theorem C7_color_compatible_matches_claim (n m : Nat) (v w : Nat × Nat)
    (hn : 1 ≤ n) (hm : 1 ≤ m)
    (hv1 : v.1 < n) (hv2 : v.2 < m) (hw1 : w.1 < n) (hw2 : w.2 < m) :
    are_color_compatible n m v w = .ok true ↔
      (((n * m) % 2 = 1 → parityOf v = 0 ∧ parityOf w = 0) ∧
       ((n * m) % 2 = 0 → parityOf v ≠ parityOf w)) := by
  obtain ⟨vx, vy⟩ := v
  obtain ⟨wx, wy⟩ := w
  simp only [Prod.fst, Prod.snd] at hv1 hv2 hw1 hw2
  have hnb : ¬(vx ≥ n ∨ vy ≥ m ∨ wx ≥ n ∨ wy ≥ m) := by omega
  rw [are_color_compatible, if_neg hnb]
  by_cases hp : (n * m) % 2 = 1
  · rw [if_pos (by simp [hp])]
    constructor
    · intro h
      have h' := Except.ok.inj h
      simp only [Bool.and_eq_true, beq_iff_eq] at h'
      constructor
      · intro _; exact ⟨h'.2, h'.1⟩
      · intro h0; omega
    · intro ⟨h1, _⟩
      obtain ⟨hv, hw⟩ := h1 hp
      simp only [parityOf, Prod.fst, Prod.snd] at hv hw
      simp [hv, hw]
  · rw [if_neg (by simp [hp])]
    have hp0 : (n * m) % 2 = 0 := by omega
    constructor
    · intro h
      have h' := Except.ok.inj h
      simp only [bne_iff_ne, ne_eq] at h'
      constructor
      · intro h1; omega
      · intro _; simp only [parityOf, Prod.fst, Prod.snd]; omega
    · intro ⟨_, h2⟩
      have hne := h2 hp0
      simp only [parityOf, Prod.fst, Prod.snd] at hne
      have hb : ((wx + wy) % 2 != (vx + vy) % 2) = true := by
        simp only [bne_iff_ne, ne_eq]
        omega
      rw [hb]

/-- Witness for C7 on the 5 by 7 grid with both endpoints in the even
    (majority) parity class. -/
theorem C7_color_compatible_matches_claim_witness :
    are_color_compatible 5 7 (2, 2) (4, 6) = .ok true ↔
      (((5 * 7) % 2 = 1 → parityOf (2, 2) = 0 ∧ parityOf (4, 6) = 0) ∧
       ((5 * 7) % 2 = 0 → parityOf (2, 2) ≠ parityOf (4, 6))) :=
  C7_color_compatible_matches_claim 5 7 (2, 2) (4, 6) (by decide) (by decide)
    (by decide) (by decide) (by decide) (by decide)

/-- `GridPath` (gridpath.rs): dimensions plus the stored vertex order.
    The petgraph field is display-only and is not modelled beyond the
    construction panic captured by `edgesOk`. -/
structure GridPath where
  n : Nat
  m : Nat
  vertex_order : List (Nat × Nat)
  deriving DecidableEq, Repr

/-- Linear node index used by `get_graph_from_vertex_order` (gridpath.rs):
    `(y * n) + x`. -/
def nodeIdx (n : Nat) (v : Nat × Nat) : Nat := v.2 * n + v.1

/-- Whether `Graph::add_edge` succeeds for one consecutive pair: both
    linear indices must name existing nodes of the `n * m` grid. -/
def pairIdxOk (n m : Nat) (p q : Nat × Nat) : Bool :=
  decide (nodeIdx n p < n * m) && decide (nodeIdx n q < n * m)

/-- The edge-insertion loop of `get_graph_from_vertex_order` (gridpath.rs):
    it panics exactly when some consecutive pair holds a vertex whose
    linear index is outside the node range. -/
def edgesOk (n m : Nat) : List (Nat × Nat) → Bool
  | p :: q :: rest => pairIdxOk n m p q && edgesOk n m (q :: rest)
  | _ => true

/-- `GridPath::new` (gridpath.rs): no validation beyond the panic inside
    graph construction. -/
def GridPath.new (n m : Nat) (vertex_order : List (Nat × Nat)) : Except PanicCause GridPath :=
  if edgesOk n m vertex_order then .ok ⟨n, m, vertex_order⟩ else .error .badIndex

/-- `GridPath::get_right_shift_vertex_order` (gridpath.rs). -/
def get_right_shift_vertex_order (vo : List (Nat × Nat)) (shift : Nat) : List (Nat × Nat) :=
  vo.map (fun v => (v.1 + shift, v.2))

/-- `GridPath::get_up_shift_vertex_order` (gridpath.rs). -/
def get_up_shift_vertex_order (vo : List (Nat × Nat)) (shift : Nat) : List (Nat × Nat) :=
  vo.map (fun v => (v.1, v.2 + shift))

/-- The scan `for i in 1..len` for the first consecutive pair with both
    vertices satisfying a boundary predicate; yields the index `i` of the
    second vertex of the pair together with the two vertices. -/
def firstPair (pred : Nat × Nat → Bool) :
    List (Nat × Nat) → Option (Nat × (Nat × Nat) × (Nat × Nat))
  | a :: b :: rest =>
    if pred a && pred b then some (1, a, b)
    else (firstPair pred (b :: rest)).map (fun r => (r.1 + 1, r.2))
  | _ => none

/-- `GridPath::extend_up` (gridpath.rs).  The `else` arm of `end_range`
    is `0..v_i.x` with no `+ 1`, exactly as in the source. -/
def extend_up (gp : GridPath) : Except PanicCause GridPath :=
  match firstPair (fun v => v.2 == gp.m - 1) gp.vertex_order with
  | none => .error .noEdge
  | some (i, prev, cur) =>
    let left_first : Bool := decide (prev.1 < cur.1)
    let start_range := if left_first then (List.range (prev.1 + 1)).reverse
                       else List.range' prev.1 (gp.n - prev.1)
    let mid_range := if left_first then List.range gp.n else (List.range gp.n).reverse
    let end_range := if left_first then (List.range' cur.1 (gp.n - cur.1)).reverse
                     else List.range cur.1
    let ext_path := start_range.map (fun j => (j, gp.m)) ++
                    mid_range.map (fun j => (j, gp.m + 1)) ++
                    end_range.map (fun j => (j, gp.m))
    let vo := gp.vertex_order.take i ++ ext_path ++ gp.vertex_order.drop i
    if edgesOk gp.n (gp.m + 2) vo then .ok ⟨gp.n, gp.m + 2, vo⟩ else .error .badIndex

/-- `GridPath::extend_down` (gridpath.rs): shifts the whole path up by 2,
    then splices with y-values 1, 0, 1; here the `else` arm of
    `end_range` does include the `+ 1`. -/
def extend_down (gp : GridPath) : Except PanicCause GridPath :=
  match firstPair (fun v => v.2 == 0) gp.vertex_order with
  | none => .error .noEdge
  | some (i, prev0, cur0) =>
    let shifted := get_up_shift_vertex_order gp.vertex_order 2
    let prev := (prev0.1, prev0.2 + 2)
    let cur := (cur0.1, cur0.2 + 2)
    let left_first : Bool := decide (prev.1 < cur.1)
    let start_range := if left_first then (List.range (prev.1 + 1)).reverse
                       else List.range' prev.1 (gp.n - prev.1)
    let mid_range := if left_first then List.range gp.n else (List.range gp.n).reverse
    let end_range := if left_first then (List.range' cur.1 (gp.n - cur.1)).reverse
                     else List.range (cur.1 + 1)
    let ext_path := start_range.map (fun j => (j, 1)) ++
                    mid_range.map (fun j => (j, 0)) ++
                    end_range.map (fun j => (j, 1))
    let vo := shifted.take i ++ ext_path ++ shifted.drop i
    if edgesOk gp.n (gp.m + 2) vo then .ok ⟨gp.n, gp.m + 2, vo⟩ else .error .badIndex

/-- `GridPath::extend_right` (gridpath.rs). -/
def extend_right (gp : GridPath) : Except PanicCause GridPath :=
  match firstPair (fun v => v.1 == gp.n - 1) gp.vertex_order with
  | none => .error .noEdge
  | some (i, prev, cur) =>
    let down_first : Bool := decide (prev.2 < cur.2)
    let start_range := if down_first then (List.range (prev.2 + 1)).reverse
                       else List.range' prev.2 (gp.m - prev.2)
    let mid_range := if down_first then List.range gp.m else (List.range gp.m).reverse
    let end_range := if down_first then (List.range' cur.2 (gp.m - cur.2)).reverse
                     else List.range (cur.2 + 1)
    let ext_path := start_range.map (fun j => (gp.n, j)) ++
                    mid_range.map (fun j => (gp.n + 1, j)) ++
                    end_range.map (fun j => (gp.n, j))
    let vo := gp.vertex_order.take i ++ ext_path ++ gp.vertex_order.drop i
    if edgesOk (gp.n + 2) gp.m vo then .ok ⟨gp.n + 2, gp.m, vo⟩ else .error .badIndex

/-- `GridPath::extend_left` (gridpath.rs): shifts the whole path right by
    2, then splices with x-values 1, 0, 1. -/
def extend_left (gp : GridPath) : Except PanicCause GridPath :=
  match firstPair (fun v => v.1 == 0) gp.vertex_order with
  | none => .error .noEdge
  | some (i, prev0, cur0) =>
    let shifted := get_right_shift_vertex_order gp.vertex_order 2
    let prev := (prev0.1 + 2, prev0.2)
    let cur := (cur0.1 + 2, cur0.2)
    let down_first : Bool := decide (prev.2 < cur.2)
    let start_range := if down_first then (List.range (prev.2 + 1)).reverse
                       else List.range' prev.2 (gp.m - prev.2)
    let mid_range := if down_first then List.range gp.m else (List.range gp.m).reverse
    let end_range := if down_first then (List.range' cur.2 (gp.m - cur.2)).reverse
                     else List.range (cur.2 + 1)
    let ext_path := start_range.map (fun j => (1, j)) ++
                    mid_range.map (fun j => (0, j)) ++
                    end_range.map (fun j => (1, j))
    let vo := shifted.take i ++ ext_path ++ shifted.drop i
    if edgesOk (gp.n + 2) gp.m vo then .ok ⟨gp.n + 2, gp.m, vo⟩ else .error .badIndex

/-- `GridPath::extend` (gridpath.rs). -/
def GridPath.extend (gp : GridPath) (direction : GridExtension) : Except PanicCause GridPath :=
  match direction with
  | .right => extend_right gp
  | .up => extend_up gp
  | .left => extend_left gp
  | .down => extend_down gp

/-- `GridPath::extend_many` (gridpath.rs). -/
def extend_many : GridPath → List GridExtension → Except PanicCause GridPath
  | gp, [] => .ok gp
  | gp, d :: ds =>
    match GridPath.extend gp d with
    | .error e => .error e
    | .ok gp' => extend_many gp' ds

/-- One dimension-specific block of `PRIME_SOLUTION_JSON` (gridpath.rs). -/
structure PrimeEntry where
  n : Nat
  m : Nat
  paths : List (List (Nat × Nat))
  deriving DecidableEq, Repr

/-- The literal contents of `PRIME_SOLUTION_JSON` (gridpath.rs), transcribed
    block for block and path for path, including the duplicated seventh
    `(2,2)` path, the corrupted seventh `(2,3)` path and the out-of-range
    vertex in the sixth `(5,4)` path. -/
def PRIME_SOLUTIONS : List PrimeEntry := [
  ⟨2, 2, [
    [(0, 0), (1, 0), (1, 1), (0, 1)],
    [(0, 0), (0, 1), (1, 1), (1, 0)],
    [(0, 1), (1, 1), (1, 0), (0, 0)],
    [(1, 0), (1, 1), (0, 1), (0, 0)],
    [(1, 1), (0, 1), (0, 0), (1, 0)],
    [(1, 1), (1, 0), (0, 0), (0, 1)],
    [(1, 0), (0, 0), (0, 1), (1, 1)],
    [(1, 0), (0, 0), (0, 1), (1, 1)],
    [(0, 1), (0, 0), (1, 0), (1, 1)]
  ]⟩,
  ⟨2, 3, [
    [(0, 0), (1, 0), (1, 1), (1, 2), (0, 2), (0, 1)],
    [(0, 0), (0, 1), (0, 2), (1, 2), (1, 1), (0, 1)],
    [(0, 0), (1, 0), (1, 1), (0, 1), (0, 2), (1, 2)],
    [(0, 1), (0, 2), (1, 2), (1, 1), (1, 0), (0, 0)],
    [(0, 1), (0, 0), (1, 0), (1, 1), (1, 2), (0, 2)],
    [(0, 2), (1, 2), (1, 1), (1, 0), (0, 0), (0, 1)],
    [(0, 2), (1, 2), (1, 1), (1, 0), (0, 0), (1, 0)],
    [(0, 2), (0, 1), (0, 0), (1, 0), (1, 1), (1, 2)],
    [(1, 0), (1, 1), (1, 2), (0, 2), (0, 1), (0, 0)],
    [(1, 0), (0, 0), (0, 1), (1, 1), (1, 2), (0, 2)],
    [(1, 0), (0, 0), (0, 1), (0, 2), (1, 2), (1, 1)],
    [(1, 1), (1, 2), (0, 2), (0, 1), (0, 0), (1, 0)],
    [(1, 1), (1, 0), (0, 0), (0, 1), (0, 2), (1, 2)],
    [(1, 2), (0, 2), (0, 1), (1, 1), (1, 0), (0, 0)],
    [(1, 2), (1, 1), (1, 0), (0, 0), (0, 1), (0, 2)],
    [(1, 2), (0, 2), (0, 1), (0, 0), (1, 0), (1, 1)]
  ]⟩,
  ⟨3, 2, [
    [(0, 0), (0, 1), (1, 1), (2, 1), (2, 0), (1, 0)],
    [(0, 0), (1, 0), (2, 0), (2, 1), (1, 1), (0, 1)],
    [(0, 0), (0, 1), (1, 1), (1, 0), (2, 0), (2, 1)],
    [(1, 0), (2, 0), (2, 1), (1, 1), (0, 1), (0, 0)],
    [(1, 0), (0, 0), (0, 1), (1, 1), (2, 1), (2, 0)],
    [(2, 0), (2, 1), (1, 1), (0, 1), (0, 0), (1, 0)],
    [(2, 0), (2, 1), (1, 1), (1, 0), (0, 0), (0, 1)],
    [(2, 0), (1, 0), (0, 0), (0, 1), (1, 1), (2, 1)],
    [(0, 1), (1, 1), (2, 1), (2, 0), (1, 0), (0, 0)],
    [(0, 1), (0, 0), (1, 0), (1, 1), (2, 1), (2, 0)],
    [(0, 1), (0, 0), (1, 0), (2, 0), (2, 1), (1, 1)],
    [(1, 1), (2, 1), (2, 0), (1, 0), (0, 0), (0, 1)],
    [(1, 1), (0, 1), (0, 0), (1, 0), (2, 0), (2, 1)],
    [(2, 1), (2, 0), (1, 0), (1, 1), (0, 1), (0, 0)],
    [(2, 1), (1, 1), (0, 1), (0, 0), (1, 0), (2, 0)],
    [(2, 1), (2, 0), (1, 0), (0, 0), (0, 1), (1, 1)]
  ]⟩,
  ⟨3, 3, [
    [(0, 0), (1, 0), (2, 0), (2, 1), (2, 2), (1, 2), (1, 1), (0, 1), (0, 2)],
    [(0, 0), (0, 1), (0, 2), (1, 2), (2, 2), (2, 1), (2, 0), (1, 0), (1, 1)],
    [(0, 0), (1, 0), (1, 1), (0, 1), (0, 2), (1, 2), (2, 2), (2, 1), (2, 0)],
    [(0, 0), (1, 0), (2, 0), (2, 1), (1, 1), (0, 1), (0, 2), (1, 2), (2, 2)],
    [(0, 2), (1, 2), (2, 2), (2, 1), (2, 0), (1, 0), (1, 1), (0, 1), (0, 0)],
    [(0, 2), (1, 2), (2, 2), (2, 1), (2, 0), (1, 0), (0, 0), (0, 1), (1, 1)],
    [(0, 2), (0, 1), (0, 0), (1, 0), (1, 1), (1, 2), (2, 2), (2, 1), (2, 0)],
    [(0, 2), (1, 2), (1, 1), (0, 1), (0, 0), (1, 0), (2, 0), (2, 1), (2, 2)],
    [(1, 1), (0, 1), (0, 2), (1, 2), (2, 2), (2, 1), (2, 0), (1, 0), (0, 0)],
    [(1, 1), (1, 2), (2, 2), (2, 1), (2, 0), (1, 0), (0, 0), (0, 1), (0, 2)],
    [(1, 1), (2, 1), (2, 2), (1, 2), (0, 2), (0, 1), (0, 0), (1, 0), (2, 0)],
    [(1, 1), (2, 1), (2, 0), (1, 0), (0, 0), (0, 1), (0, 2), (1, 2), (2, 2)],
    [(2, 0), (2, 1), (2, 2), (1, 2), (0, 2), (0, 1), (1, 1), (1, 0), (0, 0)],
    [(2, 0), (2, 1), (2, 2), (1, 2), (0, 2), (0, 1), (0, 0), (1, 0), (1, 1)],
    [(2, 0), (1, 0), (0, 0), (0, 1), (1, 1), (2, 1), (2, 2), (1, 2), (0, 2)],
    [(2, 0), (1, 0), (0, 0), (0, 1), (0, 2), (1, 2), (1, 1), (2, 1), (2, 2)],
    [(2, 2), (2, 1), (2, 0), (1, 0), (1, 1), (1, 2), (0, 2), (0, 1), (0, 0)],
    [(2, 2), (2, 1), (2, 0), (1, 0), (0, 0), (0, 1), (1, 1), (1, 2), (0, 2)],
    [(2, 2), (2, 1), (2, 0), (1, 0), (0, 0), (0, 1), (0, 2), (1, 2), (1, 1)],
    [(2, 2), (1, 2), (0, 2), (0, 1), (0, 0), (1, 0), (1, 1), (2, 1), (2, 0)]
  ]⟩,
  ⟨4, 5, [
    [(0, 1), (0, 0), (1, 0), (2, 0), (3, 0), (3, 1), (2, 1), (2, 2), (3, 2), (3, 3), (3, 4), (2, 4), (2, 3), (1, 3), (1, 4), (0, 4), (0, 3), (0, 2), (1, 2), (1, 1)],
    [(0, 3), (0, 4), (1, 4), (2, 4), (3, 4), (3, 3), (2, 3), (2, 2), (3, 2), (3, 1), (3, 0), (2, 0), (2, 1), (1, 1), (1, 0), (0, 0), (0, 1), (0, 2), (1, 2), (1, 3)],
    [(1, 1), (1, 2), (0, 2), (0, 3), (0, 4), (1, 4), (1, 3), (2, 3), (2, 4), (3, 4), (3, 3), (3, 2), (2, 2), (2, 1), (3, 1), (3, 0), (2, 0), (1, 0), (0, 0), (0, 1)],
    [(1, 3), (1, 2), (0, 2), (0, 1), (0, 0), (1, 0), (1, 1), (2, 1), (2, 0), (3, 0), (3, 1), (3, 2), (2, 2), (2, 3), (3, 3), (3, 4), (2, 4), (1, 4), (0, 4), (0, 3)],
    [(2, 1), (2, 2), (3, 2), (3, 3), (3, 4), (2, 4), (2, 3), (1, 3), (1, 4), (0, 4), (0, 3), (0, 2), (1, 2), (1, 1), (0, 1), (0, 0), (1, 0), (2, 0), (3, 0), (3, 1)],
    [(2, 3), (2, 2), (3, 2), (3, 1), (3, 0), (2, 0), (2, 1), (1, 1), (1, 0), (0, 0), (0, 1), (0, 2), (1, 2), (1, 3), (0, 3), (0, 4), (1, 4), (2, 4), (3, 4), (3, 3)],
    [(3, 1), (3, 0), (2, 0), (1, 0), (0, 0), (0, 1), (1, 1), (1, 2), (0, 2), (0, 3), (0, 4), (1, 4), (1, 3), (2, 3), (2, 4), (3, 4), (3, 3), (3, 2), (2, 2), (2, 1)],
    [(3, 3), (3, 4), (2, 4), (1, 4), (0, 4), (0, 3), (1, 3), (1, 2), (0, 2), (0, 1), (0, 0), (1, 0), (1, 1), (2, 1), (2, 0), (3, 0), (3, 1), (3, 2), (2, 2), (2, 3)]
  ]⟩,
  ⟨5, 4, [
    [(1, 0), (0, 0), (0, 1), (0, 2), (0, 3), (1, 3), (1, 2), (2, 2), (2, 3), (3, 3), (4, 3), (4, 2), (3, 2), (3, 1), (4, 1), (4, 0), (3, 0), (2, 0), (2, 1), (1, 1)],
    [(1, 1), (2, 1), (2, 0), (3, 0), (4, 0), (4, 1), (3, 1), (3, 2), (4, 2), (4, 3), (3, 3), (2, 3), (2, 2), (1, 2), (1, 3), (0, 3), (0, 2), (0, 1), (0, 0), (1, 0)],
    [(1, 2), (2, 2), (2, 3), (3, 3), (4, 3), (4, 2), (3, 2), (3, 1), (4, 1), (4, 0), (3, 0), (2, 0), (2, 1), (1, 1), (1, 0), (0, 0), (0, 1), (0, 2), (0, 3), (1, 3)],
    [(1, 3), (0, 3), (0, 2), (0, 1), (0, 0), (1, 0), (1, 1), (2, 1), (2, 0), (3, 0), (4, 0), (4, 1), (3, 1), (3, 2), (4, 2), (4, 3), (3, 3), (2, 3), (2, 2), (1, 2)],
    [(3, 0), (4, 0), (4, 1), (4, 2), (4, 3), (3, 3), (3, 2), (2, 2), (2, 3), (1, 3), (0, 3), (0, 2), (1, 2), (1, 1), (0, 1), (0, 0), (1, 0), (2, 0), (2, 1), (3, 1)],
    [(3, 1), (2, 1), (2, 0), (1, 0), (0, 0), (0, 1), (1, 1), (1, 2), (0, 2), (0, 3), (1, 3), (2, 3), (2, 2), (3, 2), (3, 3), (4, 3), (4, 4), (4, 1), (4, 0), (3, 0)],
    [(3, 2), (2, 2), (2, 3), (1, 3), (0, 3), (0, 2), (1, 2), (1, 1), (0, 1), (0, 0), (1, 0), (2, 0), (2, 1), (3, 1), (3, 0), (4, 0), (4, 1), (4, 2), (4, 3), (3, 3)],
    [(3, 3), (4, 3), (4, 2), (4, 1), (4, 0), (3, 0), (3, 1), (2, 1), (2, 0), (1, 0), (0, 0), (0, 1), (1, 1), (1, 2), (0, 2), (0, 3), (1, 3), (2, 3), (2, 2), (3, 2)]
  ]⟩
]

/-- The start/end comparison performed inside `is_prime` and `get_prime`
    (gridpath.rs): JSON index 0 and index `width * height - 1` compared
    against the given endpoints; an out-of-range JSON index yields Null,
    which compares unequal to any number. -/
def primePathMatches (width height : Nat) (s e : Nat × Nat) (p : List (Nat × Nat)) : Bool :=
  match p.get? 0, p.get? (width * height - 1) with
  | some v0, some v1 => v0 == s && v1 == e
  | _, _ => false

/-- The block scan of `GridPath::is_prime` (gridpath.rs): it stops at the
    first block whose dimensions match, answering whether some stored path
    there has the given endpoints. -/
def isPrimeGo (width height : Nat) (s e : Nat × Nat) : List PrimeEntry → Bool
  | [] => false
  | entry :: rest =>
    if entry.n == width && entry.m == height then
      entry.paths.any (primePathMatches width height s e)
    else isPrimeGo width height s e rest

/-- `GridPath::is_prime` (gridpath.rs). -/
def is_prime (width height : Nat) (s e : Nat × Nat) : Bool :=
  isPrimeGo width height s e PRIME_SOLUTIONS

/-- The block scan of `GridPath::get_prime` (gridpath.rs): the first
    matching stored path is wrapped via `GridPath::new`, whose
    construction panic propagates. -/
def getPrimeGo (width height : Nat) (s e : Nat × Nat) :
    List PrimeEntry → Except PanicCause (Option GridPath)
  | [] => .ok none
  | entry :: rest =>
    if entry.n == width && entry.m == height then
      match entry.paths.find? (primePathMatches width height s e) with
      | some p =>
        match GridPath.new width height p with
        | .error e2 => .error e2
        | .ok gp => .ok (some gp)
      | none => .ok none
    else getPrimeGo width height s e rest

/-- `GridPath::get_prime` (gridpath.rs). -/
def get_prime (width height : Nat) (s e : Nat × Nat) : Except PanicCause (Option GridPath) :=
  getPrimeGo width height s e PRIME_SOLUTIONS

/-- Path `j` of table block `i` (empty when absent). -/
def tablePath (i j : Nat) : List (Nat × Nat) :=
  (((PRIME_SOLUTIONS.get? i).map PrimeEntry.paths).getD []).getD j []

/-- Claim C4 fails on the code: block 1 of the table is the `(2,3)` block
    and its stored path 6 repeats the vertex `(1,0)` (so it is not a
    Hamiltonian path); block 5 is the `(5,4)` block and its stored path 5
    contains the out-of-range vertex `(4,4)`. -/
theorem C4_prime_table_contains_invalid_paths :
    (PRIME_SOLUTIONS.get? 1).map PrimeEntry.n = some 2 ∧
    (PRIME_SOLUTIONS.get? 1).map PrimeEntry.m = some 3 ∧
    tablePath 1 6 = [(0, 2), (1, 2), (1, 1), (1, 0), (0, 0), (1, 0)] ∧
    ¬ (tablePath 1 6).Nodup ∧
    (PRIME_SOLUTIONS.get? 5).map PrimeEntry.n = some 5 ∧
    (PRIME_SOLUTIONS.get? 5).map PrimeEntry.m = some 4 ∧
    (4, 4) ∈ tablePath 5 5 ∧
    ¬ (∀ v ∈ tablePath 5 5, v.1 < 5 ∧ v.2 < 4) := by
  refine ⟨rfl, rfl, rfl, by decide, rfl, rfl, by decide, by decide⟩

/-- Claim C9 is false as stated: `GridPath::new` accepts this vertex
    order although its only consecutive pair is not grid-adjacent
    (invariant 1 is violated). -/
theorem C9_counterexample_new_accepts_nonadjacent :
    GridPath.new 2 2 [(0, 0), (1, 1)] = .ok ⟨2, 2, [(0, 0), (1, 1)]⟩ ∧
    ¬ adjacent (0, 0) (1, 1) :=
  ⟨rfl, by decide⟩

theorem edgesOk_of_indices_in_range (n m : Nat) :
    ∀ vo : List (Nat × Nat), (∀ v ∈ vo, nodeIdx n v < n * m) → edgesOk n m vo = true
  | [], _ => rfl
  | [_], _ => rfl
  | p :: q :: rest, h => by
    have hp := h p (by simp)
    have hq := h q (by simp)
    have hrest := edgesOk_of_indices_in_range n m (q :: rest)
      (fun v hv => h v (List.mem_cons_of_mem p hv))
    simp [edgesOk, pairIdxOk, hp, hq, hrest]

/-- Claim C9 amended: `GridPath::new` does not validate the path
    invariants; construction succeeds whenever every vertex's linear
    index `y * n + x` is below `n * m` — regardless of adjacency,
    repetition or coordinate bounds — and fails only when a consecutive
    pair holds a vertex whose linear index reaches `n * m`. -/
theorem C9_amended_new_checks_only_indices (n m : Nat) (vo : List (Nat × Nat))
    (h : ∀ v ∈ vo, nodeIdx n v < n * m) :
    GridPath.new n m vo = .ok ⟨n, m, vo⟩ := by
  unfold GridPath.new
  rw [edgesOk_of_indices_in_range n m vo h]
  simp

/-- Witness for the amended C9: a vertex order with a repeated vertex and
    a non-adjacent consecutive pair is still accepted. -/
theorem C9_amended_new_checks_only_indices_witness :
    GridPath.new 2 2 [(0, 0), (1, 1), (0, 0)] = .ok ⟨2, 2, [(0, 0), (1, 1), (0, 0)]⟩ :=
  C9_amended_new_checks_only_indices 2 2 [(0, 0), (1, 1), (0, 0)] (by decide)

/-- Claim C3 fails on the code: extending this 3 by 2 path upward finds
    the right-to-left boundary pair `(2,1),(1,1)` and splices only five
    vertices — `end_range` is `0..v_i.x` instead of `0..v_i.x + 1` — so
    the band vertex `(1,2)` is never visited and the length grows by 5
    rather than `2 * 3` (the enclosing height still grows by 2). -/
theorem C3_extend_up_skips_band_vertex :
    GridPath.extend ⟨3, 2, [(0, 0), (1, 0), (2, 0), (2, 1), (1, 1), (0, 1)]⟩ GridExtension.up =
      .ok ⟨3, 4, [(0, 0), (1, 0), (2, 0), (2, 1), (2, 2), (2, 3), (1, 3), (0, 3), (0, 2),
        (1, 1), (0, 1)]⟩ ∧
    (GridPath.extend ⟨3, 2, [(0, 0), (1, 0), (2, 0), (2, 1), (1, 1), (0, 1)]⟩
      GridExtension.up).map (fun gp => gp.vertex_order.length) = .ok 11 ∧
    (GridPath.extend ⟨3, 2, [(0, 0), (1, 0), (2, 0), (2, 1), (1, 1), (0, 1)]⟩
      GridExtension.up).map (fun gp => decide ((1, 2) ∈ gp.vertex_order)) = .ok false ∧
    6 + 2 * 3 ≠ 11 := by
  refine ⟨rfl, rfl, rfl, by decide⟩

/-- Claim C10 fails on the code: for dimensions `(5,4)` with endpoints
    `(3,1)` and `(3,0)`, `is_prime` returns true but `get_prime` panics
    while constructing the stored path, because that path contains
    `(4,4)`, whose linear node index 24 is outside the 20-node grid. -/
theorem C10_is_prime_get_prime_disagree :
    is_prime 5 4 (3, 1) (3, 0) = true ∧
    get_prime 5 4 (3, 1) (3, 0) = .error .badIndex :=
  ⟨rfl, rfl⟩

/-- `GridProblem` (gridproblem.rs); the display-only petgraph inside its
    `GridGraph` is dropped, the graph's dimensions are stored directly. -/
structure GridProblem where
  width : Nat
  height : Nat
  start_coords : Nat × Nat
  end_coords : Nat × Nat
  extensions : List GridExtension
  deriving DecidableEq, Repr

/-- `GridProblem::new` (gridproblem.rs): panics when an endpoint is out
    of bounds; the extensions list starts empty. -/
def GridProblem.new (width height : Nat) (start_coords end_coords : Nat × Nat) :
    Except PanicCause GridProblem :=
  if start_coords.1 ≥ width ∨ end_coords.1 ≥ width ∨
     start_coords.2 ≥ height ∨ end_coords.2 ≥ height then .error .oob
  else .ok ⟨width, height, start_coords, end_coords, []⟩

/-- `GridProblem::is_acceptable` (gridproblem.rs). -/
def is_acceptable (p : GridProblem) : Except PanicCause Bool :=
  match are_color_compatible p.width p.height p.start_coords p.end_coords with
  | .error e => .error e
  | .ok c =>
    match is_forbidden p.width p.height p.start_coords p.end_coords with
    | .error e => .error e
    | .ok f => .ok (c && !f)

/-- `GridProblem::strip_right` (gridproblem.rs). -/
def strip_right (p : GridProblem) : Except PanicCause (Bool × GridProblem) :=
  if p.width - p.start_coords.1 ≤ 2 ∨ p.width - p.end_coords.1 ≤ 2 then .ok (false, p)
  else
    match GridProblem.new (p.width - 2) p.height p.start_coords p.end_coords with
    | .error e => .error e
    | .ok cand =>
      match is_acceptable cand with
      | .error e => .error e
      | .ok false => .ok (false, p)
      | .ok true =>
        .ok (true, { p with
                     width := p.width - 2,
                     extensions := p.extensions ++ [GridExtension.right] })

/-- `GridProblem::strip_up` (gridproblem.rs). -/
def strip_up (p : GridProblem) : Except PanicCause (Bool × GridProblem) :=
  if p.height - p.start_coords.2 ≤ 2 ∨ p.height - p.end_coords.2 ≤ 2 then .ok (false, p)
  else
    match GridProblem.new p.width (p.height - 2) p.start_coords p.end_coords with
    | .error e => .error e
    | .ok cand =>
      match is_acceptable cand with
      | .error e => .error e
      | .ok false => .ok (false, p)
      | .ok true =>
        .ok (true, { p with
                     height := p.height - 2,
                     extensions := p.extensions ++ [GridExtension.up] })

/-- `GridProblem::strip_left` (gridproblem.rs): the endpoints translate
    left by 2 on success. -/
def strip_left (p : GridProblem) : Except PanicCause (Bool × GridProblem) :=
  if p.start_coords.1 < 2 ∨ p.end_coords.1 < 2 then .ok (false, p)
  else
    match GridProblem.new (p.width - 2) p.height
        (p.start_coords.1 - 2, p.start_coords.2) (p.end_coords.1 - 2, p.end_coords.2) with
    | .error e => .error e
    | .ok cand =>
      match is_acceptable cand with
      | .error e => .error e
      | .ok false => .ok (false, p)
      | .ok true =>
        .ok (true, { p with
                     width := p.width - 2,
                     start_coords := (p.start_coords.1 - 2, p.start_coords.2),
                     end_coords := (p.end_coords.1 - 2, p.end_coords.2),
                     extensions := p.extensions ++ [GridExtension.left] })

/-- `GridProblem::strip_down` (gridproblem.rs): the endpoints translate
    down by 2 on success. -/
def strip_down (p : GridProblem) : Except PanicCause (Bool × GridProblem) :=
  if p.start_coords.2 < 2 ∨ p.end_coords.2 < 2 then .ok (false, p)
  else
    match GridProblem.new p.width (p.height - 2)
        (p.start_coords.1, p.start_coords.2 - 2) (p.end_coords.1, p.end_coords.2 - 2) with
    | .error e => .error e
    | .ok cand =>
      match is_acceptable cand with
      | .error e => .error e
      | .ok false => .ok (false, p)
      | .ok true =>
        .ok (true, { p with
                     height := p.height - 2,
                     start_coords := (p.start_coords.1, p.start_coords.2 - 2),
                     end_coords := (p.end_coords.1, p.end_coords.2 - 2),
                     extensions := p.extensions ++ [GridExtension.down] })

/-- `GridProblem::strip` (gridproblem.rs): right, then up, then left,
    then down, stopping at the first success. -/
def strip (p : GridProblem) : Except PanicCause (Bool × GridProblem) :=
  match strip_right p with
  | .error e => .error e
  | .ok (true, p1) => .ok (true, p1)
  | .ok (false, p1) =>
    match strip_up p1 with
    | .error e => .error e
    | .ok (true, p2) => .ok (true, p2)
    | .ok (false, p2) =>
      match strip_left p2 with
      | .error e => .error e
      | .ok (true, p3) => .ok (true, p3)
      | .ok (false, p3) =>
        match strip_down p3 with
        | .error e => .error e
        | .ok (true, p4) => .ok (true, p4)
        | .ok (false, p4) => .ok (false, p4)

/-- One step of the reconstruction fold over the recorded extensions
    (gridproblem.rs): grow the matching dimension by 2 and translate the
    endpoints back for left and down strips. -/
def recStep : Nat × Nat × (Nat × Nat) × (Nat × Nat) → GridExtension →
    Nat × Nat × (Nat × Nat) × (Nat × Nat)
  | (w, h, s, e), .right => (w + 2, h, s, e)
  | (w, h, s, e), .up => (w, h + 2, s, e)
  | (w, h, s, e), .left => (w + 2, h, (s.1 + 2, s.2), (e.1 + 2, e.2))
  | (w, h, s, e), .down => (w, h + 2, (s.1, s.2 + 2), (e.1, e.2 + 2))

/-- `GridProblem::reconstruct` (gridproblem.rs): a no-op when no
    extensions are recorded, otherwise the fold above followed by
    clearing the extension list. -/
def reconstruct (p : GridProblem) : GridProblem :=
  if p.extensions.length = 0 then p
  else
    let acc := p.extensions.foldl recStep (p.width, p.height, p.start_coords, p.end_coords)
    ⟨acc.1, acc.2.1, acc.2.2.1, acc.2.2.2, []⟩

/-- The candidate sub-problem pair built for the interior horizontal edge
    at column `j` between rows `i` and `i+1` (gridproblem.rs, identical
    in `can_be_split_horizontally` and `split_horizontally`). -/
def splitHCell (p : GridProblem) (i j : Nat) :
    Except PanicCause (Option (GridProblem × GridProblem)) :=
  let lower : Nat × Nat := (j, i)
  let upper : Nat × Nat := (j, i + 1)
  if lower = p.start_coords ∨ upper = p.start_coords ∨
     lower = p.end_coords ∨ upper = p.end_coords then .ok none
  else
    let lowerRes := if p.start_coords.2 < p.end_coords.2 then
        GridProblem.new p.width (i + 1) p.start_coords lower
      else GridProblem.new p.width (i + 1) lower p.end_coords
    let upperRes := if p.start_coords.2 < p.end_coords.2 then
        GridProblem.new p.width (p.height - (i + 1)) (upper.1, 0)
          (p.end_coords.1, p.end_coords.2 - (i + 1))
      else GridProblem.new p.width (p.height - (i + 1))
          (p.start_coords.1, p.start_coords.2 - (i + 1)) (upper.1, 0)
    match lowerRes, upperRes with
    | .error e, _ => .error e
    | _, .error e => .error e
    | .ok lsp, .ok usp =>
      match is_acceptable lsp with
      | .error e => .error e
      | .ok false => .ok none
      | .ok true =>
        match is_acceptable usp with
        | .error e => .error e
        | .ok false => .ok none
        | .ok true => .ok (some (lsp, usp))

/-- The row-major scan order of the horizontal split loops
    (gridproblem.rs): rows strictly between the endpoint rows, each
    column in turn. -/
def splitHIndexList (p : GridProblem) : List (Nat × Nat) :=
  let lo := if p.start_coords.2 < p.end_coords.2 then p.start_coords.2 else p.end_coords.2
  let hi := if p.start_coords.2 < p.end_coords.2 then p.end_coords.2 else p.start_coords.2
  (List.range' lo (hi - lo)).flatMap (fun i => (List.range p.width).map (fun j => (i, j)))

/-- First hit of the horizontal split scan. -/
def splitHScan (p : GridProblem) : List (Nat × Nat) →
    Except PanicCause (Option (GridProblem × GridProblem))
  | [] => .ok none
  | (i, j) :: rest =>
    match splitHCell p i j with
    | .error e => .error e
    | .ok (some pq) => .ok (some pq)
    | .ok none => splitHScan p rest

/-- `GridProblem::split_horizontally` (gridproblem.rs). -/
def split_horizontally (p : GridProblem) :
    Except PanicCause (Option (GridProblem × GridProblem)) :=
  if p.start_coords.2 = p.end_coords.2 then .ok none
  else splitHScan p (splitHIndexList p)

/-- `GridProblem::can_be_split_horizontally` (gridproblem.rs): the same
    scan, reporting only whether it succeeds. -/
def can_be_split_horizontally (p : GridProblem) : Except PanicCause Bool :=
  if p.start_coords.2 = p.end_coords.2 then .ok false
  else
    match splitHScan p (splitHIndexList p) with
    | .error e => .error e
    | .ok (some _) => .ok true
    | .ok none => .ok false

/-- The candidate sub-problem pair built for the interior vertical edge
    at row `j` between columns `i` and `i+1` (gridproblem.rs). -/
def splitVCell (p : GridProblem) (i j : Nat) :
    Except PanicCause (Option (GridProblem × GridProblem)) :=
  let left : Nat × Nat := (i, j)
  let right : Nat × Nat := (i + 1, j)
  if left = p.start_coords ∨ right = p.start_coords ∨
     left = p.end_coords ∨ right = p.end_coords then .ok none
  else
    let leftRes := if p.start_coords.1 < p.end_coords.1 then
        GridProblem.new (i + 1) p.height p.start_coords left
      else GridProblem.new (i + 1) p.height left p.end_coords
    let rightRes := if p.start_coords.1 < p.end_coords.1 then
        GridProblem.new (p.width - (i + 1)) p.height (0, right.2)
          (p.end_coords.1 - (i + 1), p.end_coords.2)
      else GridProblem.new (p.width - (i + 1)) p.height
          (p.start_coords.1 - (i + 1), p.start_coords.2) (0, right.2)
    match leftRes, rightRes with
    | .error e, _ => .error e
    | _, .error e => .error e
    | .ok lsp, .ok rsp =>
      match is_acceptable lsp with
      | .error e => .error e
      | .ok false => .ok none
      | .ok true =>
        match is_acceptable rsp with
        | .error e => .error e
        | .ok false => .ok none
        | .ok true => .ok (some (lsp, rsp))

/-- The column-major scan order of the vertical split loops
    (gridproblem.rs): columns strictly between the endpoint columns,
    each row in turn. -/
def splitVIndexList (p : GridProblem) : List (Nat × Nat) :=
  let lo := if p.start_coords.1 < p.end_coords.1 then p.start_coords.1 else p.end_coords.1
  let hi := if p.start_coords.1 < p.end_coords.1 then p.end_coords.1 else p.start_coords.1
  (List.range' lo (hi - lo)).flatMap (fun i => (List.range p.height).map (fun j => (i, j)))

/-- First hit of the vertical split scan. -/
def splitVScan (p : GridProblem) : List (Nat × Nat) →
    Except PanicCause (Option (GridProblem × GridProblem))
  | [] => .ok none
  | (i, j) :: rest =>
    match splitVCell p i j with
    | .error e => .error e
    | .ok (some pq) => .ok (some pq)
    | .ok none => splitVScan p rest

/-- `GridProblem::split_vertically` (gridproblem.rs). -/
def split_vertically (p : GridProblem) :
    Except PanicCause (Option (GridProblem × GridProblem)) :=
  if p.start_coords.1 = p.end_coords.1 then .ok none
  else splitVScan p (splitVIndexList p)

/-- `GridProblem::can_be_split_vertically` (gridproblem.rs). -/
def can_be_split_vertically (p : GridProblem) : Except PanicCause Bool :=
  if p.start_coords.1 = p.end_coords.1 then .ok false
  else
    match splitVScan p (splitVIndexList p) with
    | .error e => .error e
    | .ok (some _) => .ok true
    | .ok none => .ok false

/-- The strip-to-fixed-point loop inside `solve` (gridproblem.rs); each
    successful strip shrinks a dimension by 2, so `width + height + 1`
    steps of fuel always suffice. -/
def stripLoop : Nat → GridProblem → Except PanicCause GridProblem
  | 0, _ => .error .fuel
  | fuel + 1, p =>
    match strip p with
    | .error e => .error e
    | .ok (false, p') => .ok p'
    | .ok (true, p') => stripLoop fuel p'

/-- The single-row / single-column vertex order built by `solve` when a
    dimension is 1 (gridproblem.rs), reversed when the start coordinate
    is not at the origin end of the line. -/
def linePath (width height : Nat) (s : Nat × Nat) : List (Nat × Nat) :=
  let bound := if width = 1 then height else width
  let range :=
    if width = 1 ∧ s.2 ≠ 0 then (List.range bound).reverse
    else if ¬ width = 1 ∧ s.1 ≠ 0 then (List.range bound).reverse
    else List.range bound
  range.map (fun i => if width = 1 then (0, i) else (i, 0))

/-- The body of `GridProblem::solve` (gridproblem.rs): the solution-state
    loop and the recursion into sub-problems, driven by explicit fuel.
    A recursive call `sub.solve()` appears inlined as its acceptability
    check followed by the loop with no solution yet; `.unwrap()` on a
    `None` sub-solution is the `unwrapNone` panic. -/
def solveAux : Nat → GridProblem → Option GridPath → Except PanicCause (Option GridPath)
  | 0, _, _ => .error .fuel
  | _ + 1, p, some sp =>
    match extend_many sp p.extensions with
    | .error e => .error e
    | .ok sp' => .ok (some sp')
  | fuel + 1, p0, none =>
    match stripLoop (p0.width + p0.height + 1) p0 with
    | .error e => .error e
    | .ok p =>
      if is_prime p.width p.height p.start_coords p.end_coords then
        match get_prime p.width p.height p.start_coords p.end_coords with
        | .error e => .error e
        | .ok s => solveAux fuel p s
      else
        match can_be_split_horizontally p with
        | .error e => .error e
        | .ok true =>
          match split_horizontally p with
          | .error e => .error e
          | .ok none => .error .unwrapNone
          | .ok (some (pb, pa)) =>
            match is_acceptable pb with
            | .error e => .error e
            | .ok accb =>
              match (if accb then solveAux fuel pb none else .ok none) with
              | .error e => .error e
              | .ok none => .error .unwrapNone
              | .ok (some pbSol) =>
                match is_acceptable pa with
                | .error e => .error e
                | .ok acca =>
                  match (if acca then solveAux fuel pa none else .ok none) with
                  | .error e => .error e
                  | .ok none => .error .unwrapNone
                  | .ok (some paSol) =>
                    let vo := pbSol.vertex_order ++
                      get_up_shift_vertex_order paSol.vertex_order pb.height
                    match GridPath.new pb.width (pb.height + pa.height) vo with
                    | .error e => .error e
                    | .ok gp => solveAux fuel p (some gp)
        | .ok false =>
          match can_be_split_vertically p with
          | .error e => .error e
          | .ok true =>
            match split_vertically p with
            | .error e => .error e
            | .ok none => .error .unwrapNone
            | .ok (some (pl, pr)) =>
              match is_acceptable pl with
              | .error e => .error e
              | .ok accl =>
                match (if accl then solveAux fuel pl none else .ok none) with
                | .error e => .error e
                | .ok none => .error .unwrapNone
                | .ok (some plSol) =>
                  match is_acceptable pr with
                  | .error e => .error e
                  | .ok accr =>
                    match (if accr then solveAux fuel pr none else .ok none) with
                    | .error e => .error e
                    | .ok none => .error .unwrapNone
                    | .ok (some prSol) =>
                      let vo := plSol.vertex_order ++
                        get_right_shift_vertex_order prSol.vertex_order pl.width
                      match GridPath.new (pl.width + pr.width) pl.height vo with
                      | .error e => .error e
                      | .ok gp => solveAux fuel p (some gp)
          | .ok false =>
            if p.width = 1 ∨ p.height = 1 then
              match GridPath.new p.width p.height (linePath p.width p.height p.start_coords) with
              | .error e => .error e
              | .ok gp => solveAux fuel p (some gp)
            else .error .unsolvable

/-- `GridProblem::solve` (gridproblem.rs), fuelled: unacceptable inputs
    yield `none` up front, otherwise the loop runs. -/
def solve (fuel : Nat) (p : GridProblem) : Except PanicCause (Option GridPath) :=
  match is_acceptable p with
  | .error e => .error e
  | .ok false => .ok none
  | .ok true => solveAux fuel p none

/-- Claim C8 is false as stated: `GridProblem::new` accepts a pair of
    equal in-bounds endpoints instead of rejecting the construction. -/
theorem C8_counterexample_new_accepts_equal_endpoints :
    GridProblem.new 2 2 (0, 0) (0, 0) = .ok ⟨2, 2, (0, 0), (0, 0), []⟩ := rfl

/-- Claim C8 amended: construction enforces only the bounds invariant;
    for every pair of equal in-bounds endpoints `GridProblem::new`
    succeeds, so the `s ≠ t` invariant is not checked at construction. -/
theorem C8_amended_new_accepts_equal_endpoints (width height : Nat) (s : Nat × Nat)
    (h1 : s.1 < width) (h2 : s.2 < height) :
    GridProblem.new width height s s = .ok ⟨width, height, s, s, []⟩ := by
  have hc : ¬ (s.1 ≥ width ∨ s.1 ≥ width ∨ s.2 ≥ height ∨ s.2 ≥ height) := by omega
  unfold GridProblem.new
  rw [if_neg hc]

/-- Witness for the amended C8 at a concrete equal endpoint pair. -/
theorem C8_amended_new_accepts_equal_endpoints_witness :
    GridProblem.new 3 3 (1, 2) (1, 2) = .ok ⟨3, 3, (1, 2), (1, 2), []⟩ :=
  C8_amended_new_accepts_equal_endpoints 3 3 (1, 2) (by decide) (by decide)

/-- Claim C1 fails on the code: the problem `(5,4,(3,1),(3,0))` lies in
    the claimed range and is acceptable (so the claim demands a path),
    yet `solve` panics: no strip applies, the prime lookup matches the
    corrupted `(5,4)` table path containing `(4,4)`, and constructing
    that path aborts with an out-of-range node index. -/
theorem C1_solve_panics_on_acceptable_input :
    is_acceptable ⟨5, 4, (3, 1), (3, 0), []⟩ = .ok true ∧
    solve 100 ⟨5, 4, (3, 1), (3, 0), []⟩ = .error .badIndex :=
  ⟨rfl, rfl⟩

/-- Claim C2 fails on the code: for `(2,3,(0,2),(1,0))` the solver
    returns the corrupted table path, which repeats `(1,0)` and never
    visits `(0,1)`, so the returned vertex sequence is not distinct. -/
theorem C2_solve_returns_path_with_repeated_vertex :
    solve 100 ⟨2, 3, (0, 2), (1, 0), []⟩ =
      .ok (some ⟨2, 3, [(0, 2), (1, 2), (1, 1), (1, 0), (0, 0), (1, 0)]⟩) ∧
    ¬ ([(0, 2), (1, 2), (1, 1), (1, 0), (0, 0), (1, 0)] : List (Nat × Nat)).Nodup ∧
    ((0, 1) : Nat × Nat) ∉ [(0, 2), (1, 2), (1, 1), (1, 0), (0, 0), (1, 0)] :=
  ⟨rfl, by decide, by decide⟩

/-- Dispatch a chosen strip direction to the corresponding side-specific
    method of `GridProblem`. -/
def strip_dir (d : GridExtension) (p : GridProblem) : Except PanicCause (Bool × GridProblem) :=
  match d with
  | .right => strip_right p
  | .up => strip_up p
  | .left => strip_left p
  | .down => strip_down p

/-- A sequence of side-specific strip calls, all required to return
    true; `none` reports that some call returned false. -/
def strip_all_true (p : GridProblem) :
    List GridExtension → Except PanicCause (Option GridProblem)
  | [] => .ok (some p)
  | d :: ds =>
    match strip_dir d p with
    | .error e => .error e
    | .ok (false, _) => .ok none
    | .ok (true, p') => strip_all_true p' ds

/-- Total width growth the reconstruction fold applies for a list of
    recorded extensions. -/
def extDW : List GridExtension → Nat
  | [] => 0
  | GridExtension.right :: l => extDW l + 2
  | GridExtension.left :: l => extDW l + 2
  | GridExtension.up :: l => extDW l
  | GridExtension.down :: l => extDW l

/-- Total height growth of the reconstruction fold. -/
def extDH : List GridExtension → Nat
  | [] => 0
  | GridExtension.up :: l => extDH l + 2
  | GridExtension.down :: l => extDH l + 2
  | GridExtension.right :: l => extDH l
  | GridExtension.left :: l => extDH l

/-- Total x-translation of the reconstruction fold. -/
def extDX : List GridExtension → Nat
  | [] => 0
  | GridExtension.left :: l => extDX l + 2
  | GridExtension.right :: l => extDX l
  | GridExtension.up :: l => extDX l
  | GridExtension.down :: l => extDX l

/-- Total y-translation of the reconstruction fold. -/
def extDY : List GridExtension → Nat
  | [] => 0
  | GridExtension.down :: l => extDY l + 2
  | GridExtension.right :: l => extDY l
  | GridExtension.up :: l => extDY l
  | GridExtension.left :: l => extDY l

theorem foldl_recStep_eq (l : List GridExtension) :
    ∀ w h sx sy ex ey : Nat, l.foldl recStep (w, h, (sx, sy), (ex, ey)) =
      (w + extDW l, h + extDH l, (sx + extDX l, sy + extDY l),
       (ex + extDX l, ey + extDY l)) := by
  induction l with
  | nil => intro w h sx sy ex ey; simp [extDW, extDH, extDX, extDY]
  | cons d l ih =>
    intro w h sx sy ex ey
    cases d <;>
      simp only [List.foldl_cons, recStep, extDW, extDH, extDX, extDY] <;>
      rw [ih] <;>
      simp only [Prod.mk.injEq, and_true, true_and] <;>
      omega

/-- The tuple the reconstruction fold produces from a problem's current
    state and pending extensions; successful strips leave it unchanged. -/
def origTuple (p : GridProblem) : Nat × Nat × (Nat × Nat) × (Nat × Nat) :=
  p.extensions.foldl recStep (p.width, p.height, p.start_coords, p.end_coords)

theorem strip_dir_preserves_origTuple (d : GridExtension) (p p' : GridProblem)
    (h : strip_dir d p = .ok (true, p')) : origTuple p' = origTuple p := by
  obtain ⟨w, ht, s, e, exts⟩ := p
  obtain ⟨sx, sy⟩ := s
  obtain ⟨ex, ey⟩ := e
  cases d
  case right =>
    simp only [strip_dir, strip_right] at h
    split at h
    · simp at h
    · split at h
      · simp at h
      · rename_i cand heq
        unfold GridProblem.new at heq
        split at heq
        · simp at heq
        · split at h
          · simp at h
          · simp at h
          · simp only [Except.ok.injEq, Prod.mk.injEq, true_and] at h
            subst h
            simp only [origTuple, List.foldl_append, List.foldl_cons, List.foldl_nil]
            rw [foldl_recStep_eq, foldl_recStep_eq]
            simp only [recStep, Prod.mk.injEq, and_true, true_and]
            omega
  case up =>
    simp only [strip_dir, strip_up] at h
    split at h
    · simp at h
    · split at h
      · simp at h
      · rename_i cand heq
        unfold GridProblem.new at heq
        split at heq
        · simp at heq
        · split at h
          · simp at h
          · simp at h
          · simp only [Except.ok.injEq, Prod.mk.injEq, true_and] at h
            subst h
            simp only [origTuple, List.foldl_append, List.foldl_cons, List.foldl_nil]
            rw [foldl_recStep_eq, foldl_recStep_eq]
            simp only [recStep, Prod.mk.injEq, and_true, true_and]
            omega
  case left =>
    simp only [strip_dir, strip_left] at h
    split at h
    · simp at h
    · split at h
      · simp at h
      · rename_i cand heq
        unfold GridProblem.new at heq
        split at heq
        · simp at heq
        · split at h
          · simp at h
          · simp at h
          · simp only [Except.ok.injEq, Prod.mk.injEq, true_and] at h
            subst h
            simp only [origTuple, List.foldl_append, List.foldl_cons, List.foldl_nil]
            rw [foldl_recStep_eq, foldl_recStep_eq]
            simp only [recStep, Prod.mk.injEq, and_true, true_and]
            omega
  case down =>
    simp only [strip_dir, strip_down] at h
    split at h
    · simp at h
    · split at h
      · simp at h
      · rename_i cand heq
        unfold GridProblem.new at heq
        split at heq
        · simp at heq
        · split at h
          · simp at h
          · simp at h
          · simp only [Except.ok.injEq, Prod.mk.injEq, true_and] at h
            subst h
            simp only [origTuple, List.foldl_append, List.foldl_cons, List.foldl_nil]
            rw [foldl_recStep_eq, foldl_recStep_eq]
            simp only [recStep, Prod.mk.injEq, and_true, true_and]
            omega

theorem strip_all_true_origTuple (ds : List GridExtension) :
    ∀ p q : GridProblem, strip_all_true p ds = .ok (some q) →
      origTuple q = origTuple p := by
  induction ds with
  | nil =>
    intro p q h
    simp only [strip_all_true, Except.ok.injEq, Option.some.injEq] at h
    rw [h]
  | cons d ds ih =>
    intro p q h
    simp only [strip_all_true] at h
    split at h
    · simp at h
    · simp at h
    · rename_i p' heq
      exact (ih p' q h).trans (strip_dir_preserves_origTuple d p p' heq)

/-- Claim C5: starting from an acceptable problem at rest (no recorded
    extensions), after any sequence of side-specific strips that all
    return true, `reconstruct` restores the original width, height,
    start and end coordinates and leaves the extensions empty. -/
theorem C5_reconstruct_roundtrip (p q : GridProblem) (ds : List GridExtension)
    (hext : p.extensions = [])
    (hacc : is_acceptable p = .ok true)
    (hstrip : strip_all_true p ds = .ok (some q)) :
    (reconstruct q).width = p.width ∧ (reconstruct q).height = p.height ∧
    (reconstruct q).start_coords = p.start_coords ∧
    (reconstruct q).end_coords = p.end_coords ∧ (reconstruct q).extensions = [] := by
  have horig : origTuple q = origTuple p := strip_all_true_origTuple ds p q hstrip
  have hop : origTuple p = (p.width, p.height, p.start_coords, p.end_coords) := by
    simp [origTuple, hext]
  rw [hop] at horig
  by_cases hqe : q.extensions = []
  · have hq : origTuple q = (q.width, q.height, q.start_coords, q.end_coords) := by
      simp [origTuple, hqe]
    rw [hq] at horig
    simp only [Prod.mk.injEq] at horig
    obtain ⟨h1, h2, h3, h4⟩ := horig
    simp [reconstruct, hqe, h1, h2, h3, h4]
  · have hrw : q.extensions.foldl recStep (q.width, q.height, q.start_coords, q.end_coords)
        = (p.width, p.height, p.start_coords, p.end_coords) := horig
    have hlen : ¬ q.extensions.length = 0 := by
      simpa [List.length_eq_zero] using hqe
    simp [reconstruct, hlen, hrw]

/-- Witness for C5: stripping `(8,9,(3,3),(2,3))` downward once succeeds
    and `reconstruct` restores the original problem. -/
theorem C5_reconstruct_roundtrip_witness :
    (reconstruct ⟨8, 7, (3, 1), (2, 1), [GridExtension.down]⟩).width = 8 ∧
    (reconstruct ⟨8, 7, (3, 1), (2, 1), [GridExtension.down]⟩).height = 9 ∧
    (reconstruct ⟨8, 7, (3, 1), (2, 1), [GridExtension.down]⟩).start_coords = (3, 3) ∧
    (reconstruct ⟨8, 7, (3, 1), (2, 1), [GridExtension.down]⟩).end_coords = (2, 3) ∧
    (reconstruct ⟨8, 7, (3, 1), (2, 1), [GridExtension.down]⟩).extensions = [] :=
  C5_reconstruct_roundtrip ⟨8, 9, (3, 3), (2, 3), []⟩
    ⟨8, 7, (3, 1), (2, 1), [GridExtension.down]⟩ [GridExtension.down]
    rfl rfl rfl
